import Mathlib

/-!
Verification of the auto-generated warning frame module
(src/utils/auto-generated.ts of tr7zw/mc-publish).

The frame renderer and the warning-text builder are embedded from the
TypeScript source.  The external collaborators (the line wrapper
splitLines, the padder pad, and the platform newline constant
DEFAULT_NEWLINE) are repository code that is absent from the source tree;
they are modelled from the specification of their contracts.  JavaScript
numeric edge cases (division by zero producing Infinity or NaN, and
String.repeat throwing a RangeError on a non-finite count) are made
explicit through an Except-valued result.
-/

deriving instance DecidableEq for Except

namespace McPublish

/-- Alignment values accepted by the padder (the set start / center / end). -/
inductive FrameAlign where
  | start
  | center
  | «end»
deriving DecidableEq, Repr

/-- A run of n fill characters (spaces), as used by the padder. -/
def spaces (n : Nat) : String :=
  String.mk (List.replicate n ' ')

/-- Modelled from the spec: the padder collaborator pad(text, width, alignment)
from string-utils, which is absent from the source tree.  It returns text
extended with spaces to exactly width characters, positioned per the
alignment; center splits the fill as evenly as possible with the extra space
on the trailing side; text already at least width characters long is returned
unchanged. -/
def pad (text : String) (width : Nat) (align : FrameAlign) : String :=
  if width ≤ text.length then text
  else
    let fill := width - text.length
    match align with
    | FrameAlign.start => text ++ spaces fill
    | FrameAlign.«end» => spaces fill ++ text
    | FrameAlign.center => spaces (fill / 2) ++ text ++ spaces (fill - fill / 2)

/-- Split a character list at every occurrence of the separator; the result
always has at least one (possibly empty) group. -/
def splitListOn (sep : Char) : List Char → List (List Char)
  | [] => [[]]
  | c :: cs =>
    match splitListOn sep cs with
    | [] => [[]]
    | g :: gs => if c = sep then [] :: g :: gs else (c :: g) :: gs

/-- Hard line breaks of the message: the text split at every newline
character. -/
def hardSplitLines (text : String) : List String :=
  (splitListOn '\n' text.data).map String.mk

/-- Greedy fixed-width chunking used for soft wrapping: every produced chunk
has at most n characters (n = 0 returns the input as a single chunk). -/
def chunkChars (n : Nat) (cs : List Char) : List (List Char) :=
  if _h : cs.length ≤ n ∨ n = 0 then [cs]
  else cs.take n :: chunkChars n (cs.drop n)
termination_by cs.length
decreasing_by
  simp only [List.length_drop]
  omega

/-- Modelled from the spec: the line wrapper collaborator
splitLines(text, maxLength) from string-utils, which is absent from the
source tree.  Explicit line breaks are hard splits; maxLength = 0 is the
no-limit sentinel; a positive maxLength additionally soft-wraps each line so
that no returned line exceeds maxLength characters; empty input yields one
empty line. -/
def splitLines (text : String) (maxLength : Nat) : List String :=
  if maxLength = 0 then hardSplitLines text
  else ((hardSplitLines text).map
    (fun line => (chunkChars maxLength line.data).map String.mk)).flatten

/-- The base warning text (source line 125). -/
def baseWarning : String :=
  "WARNING: AUTO-GENERATED FILE - DO NOT EDIT!\n\nPlease be advised that this is an auto-generated file and should NOT be modified. Any changes made to this file WILL BE OVERWRITTEN."

/-- Embedding of generateAutoGeneratedWarningText (source lines 124-131).
The argument is optional; the JavaScript falsiness guard treats both an
absent argument and the empty string as missing. -/
def generateAutoGeneratedWarningText (sourceFileName : Option String) : String :=
  if sourceFileName.getD "" = "" then baseWarning
  else
    baseWarning ++ "\n\nTo make changes to the contents of this file, please modify the " ++ sourceFileName.getD "" ++ " file instead. This will ensure that your changes are properly reflected in the auto-generated file."

/-- Embedding of the FrameStyle interface (source lines 65-86). -/
structure FrameStyle where
  lineStart : Option String := none
  filler : Option String := none
  lineEnd : Option String := none
deriving DecidableEq, Repr

/-- YAML_FRAME_STYLE (source line 92). -/
def YAML_FRAME_STYLE : FrameStyle := { filler := some "#" }

/-- JS_MULTILINE_FRAME_STYLE (source line 97). -/
def JS_MULTILINE_FRAME_STYLE : FrameStyle :=
  { lineStart := some "/* ", filler := some "*", lineEnd := some " */" }

/-- JS_SINGLELINE_FRAME_STYLE (source line 102). -/
def JS_SINGLELINE_FRAME_STYLE : FrameStyle := { filler := some "//" }

/-- DEFAULT_FRAME_STYLE (source line 109). -/
def DEFAULT_FRAME_STYLE : FrameStyle := YAML_FRAME_STYLE

/-- The align option accepts a single alignment value or an array of values
(source line 28). -/
inductive AlignSpec where
  | single (value : FrameAlign)
  | seq (values : List FrameAlign)
deriving DecidableEq, Repr

/-- DEFAULT_FRAME_ALIGN (source line 114). -/
def DEFAULT_FRAME_ALIGN : List FrameAlign := [FrameAlign.center]

/-- Embedding of AutoGeneratedWarningFrameOptions (source lines 8-48).
The lineWidth option is an integer here; the claims only exercise integral
widths. -/
structure AutoGeneratedWarningFrameOptions where
  sourceFileName : Option String := none
  message : Option String := none
  align : Option AlignSpec := none
  style : Option FrameStyle := none
  lineWidth : Option Int := none
  newline : Option String := none
deriving DecidableEq, Repr

/-- Source line 141: the message option, with nullish fallback to the
generated warning text; nullish coalescing keeps an explicit empty-string
message. -/
def resolvedMessage (o : Option AutoGeneratedWarningFrameOptions) : String :=
  match o.bind (·.message) with
  | some m => m
  | none => generateAutoGeneratedWarningText (o.bind (·.sourceFileName))

/-- Source line 142: an array is used as-is, a single alignment is wrapped in
a one-element array, and no alignment falls back to DEFAULT_FRAME_ALIGN. -/
def resolvedAlign (o : Option AutoGeneratedWarningFrameOptions) : List FrameAlign :=
  match o.bind (·.align) with
  | some (AlignSpec.seq l) => l
  | some (AlignSpec.single a) => [a]
  | none => DEFAULT_FRAME_ALIGN

/-- Source line 143: the style's filler, with nullish fallback to the filler
of DEFAULT_FRAME_STYLE (which is "#"). -/
def resolvedFiller (o : Option AutoGeneratedWarningFrameOptions) : String :=
  match (o.bind (·.style)).bind (·.filler) with
  | some f => f
  | none => DEFAULT_FRAME_STYLE.filler.getD ""

/-- Source line 144: the style's lineStart, defaulting to the filler followed
by a space. -/
def resolvedLineStart (o : Option AutoGeneratedWarningFrameOptions) : String :=
  match (o.bind (·.style)).bind (·.lineStart) with
  | some s => s
  | none => resolvedFiller o ++ " "

/-- Source line 145: the style's lineEnd, defaulting to a space followed by
the filler. -/
def resolvedLineEnd (o : Option AutoGeneratedWarningFrameOptions) : String :=
  match (o.bind (·.style)).bind (·.lineEnd) with
  | some s => s
  | none => " " ++ resolvedFiller o

/-- Source line 146; DEFAULT_NEWLINE is the environment collaborator, passed
here as an explicit parameter. -/
def resolvedNewline (defaultNewline : String) (o : Option AutoGeneratedWarningFrameOptions) : String :=
  (o.bind (·.newline)).getD defaultNewline

/-- Source line 148: minLineLength. -/
def minLineLengthOf (o : Option AutoGeneratedWarningFrameOptions) : Nat :=
  (resolvedLineStart o).length + (resolvedLineEnd o).length

/-- Source line 149: Math.max((options?.lineWidth || 0) - minLineLength, 0);
the Int.toNat conversion is the clamp at zero. -/
def maxLineLengthOf (o : Option AutoGeneratedWarningFrameOptions) : Nat :=
  (((o.bind (·.lineWidth)).getD 0) - (minLineLengthOf o : Int)).toNat

/-- Source line 150: the wrapped content lines. -/
def wrappedLines (o : Option AutoGeneratedWarningFrameOptions) : List String :=
  splitLines (resolvedMessage o) (maxLineLengthOf o)

/-- Source line 152: the maximum content-line length; the fold realises the
iterable max() together with its || 0 fallback for an empty sequence. -/
def frameSizeOf (o : Option AutoGeneratedWarningFrameOptions) : Nat :=
  ((wrappedLines o).map String.length).foldl max 0

/-- Source line 153 for a non-empty filler:
Math.ceil(frameSize / filler.length) as natural ceiling division. -/
def fillerCount (filler : String) (frameSize : Nat) : Nat :=
  (frameSize + filler.length - 1) / filler.length

/-- JavaScript String.repeat with a natural count: n copies of s. -/
def repeatString (s : String) : Nat → String
  | 0 => ""
  | n + 1 => s ++ repeatString s n

/-- Source lines 153-154 with JavaScript numeric semantics made explicit:
with an empty filler and frameSize > 0, frameSize / 0 is Infinity and
String.repeat throws a RangeError; with frameSize = 0, 0 / 0 is NaN, whose
repeat count coerces to 0 and yields the empty string. -/
def fillerRepeat (filler : String) (frameSize : Nat) : Except String String :=
  if filler.length = 0 then
    if frameSize = 0 then Except.ok ""
    else Except.error "RangeError: Invalid count value"
  else Except.ok (repeatString filler (fillerCount filler frameSize))

/-- Source line 156: align[Math.min(i, align.length - 1)]; an out-of-range
index (possible only for an empty alignment array) yields undefined, for
which the padder falls back to its default alignment, center. -/
def alignFor (align : List FrameAlign) (i : Nat) : FrameAlign :=
  align.getD (min i (align.length - 1)) FrameAlign.center

/-- Source lines 156-157: each wrapped line is padded to frameSize with its
alignment and wrapped in lineStart and lineEnd. -/
def contentLines (o : Option AutoGeneratedWarningFrameOptions) : List String :=
  (wrappedLines o).enum.map
    (fun p => resolvedLineStart o ++ pad p.2 (frameSizeOf o) (alignFor (resolvedAlign o) p.1) ++ resolvedLineEnd o)

/-- JavaScript Array.join with a separator. -/
def joinSep (sep : String) : List String → String
  | [] => ""
  | [s] => s
  | s :: rest => s ++ sep ++ joinSep sep rest

/-- Embedding of generateAutoGeneratedWarningFrame (source lines 140-163):
top border, padded content lines, bottom border, joined with the resolved
newline.  The result lives in Except because the border construction can
throw (empty filler with a non-empty frame). -/
def generateAutoGeneratedWarningFrame (defaultNewline : String) (options : Option AutoGeneratedWarningFrameOptions) : Except String String :=
  match fillerRepeat (resolvedFiller options) (frameSizeOf options) with
  | Except.error e => Except.error e
  | Except.ok rep =>
    let frameLine := resolvedLineStart options ++ rep ++ resolvedLineEnd options
    Except.ok (joinSep (resolvedNewline defaultNewline options)
      (frameLine :: (contentLines options ++ [frameLine])))

/-! Helper lemmas shared by the claim theorems. -/

/-- A string of length zero is the empty string. -/
theorem string_eq_empty_of_length_eq_zero (s : String) (h : s.length = 0) : s = "" := by
  cases s with
  | mk data =>
    cases data with
    | nil => rfl
    | cons c cs => simp at h

/-- The length of a run of spaces. -/
theorem spaces_length (n : Nat) : (spaces n).length = n := by
  simp [spaces]

/-- The padder always produces a string of length max(input, width). -/
theorem pad_length (t : String) (w : Nat) (a : FrameAlign) :
    (pad t w a).length = max t.length w := by
  unfold pad
  by_cases h : w ≤ t.length
  · simp [h, Nat.max_eq_left h]
  · cases a <;> simp [h, spaces_length] <;> omega

/-- The length of a repeated string. -/
theorem repeatString_length (s : String) (n : Nat) :
    (repeatString s n).length = n * s.length := by
  induction n with
  | zero => simp [repeatString]
  | succ k ih =>
    show (s ++ repeatString s k).length = (k + 1) * s.length
    rw [String.length_append, ih]
    ring

/-- The seed of a maximum fold is a lower bound of the result. -/
theorem init_le_foldl_max (l : List Nat) (a : Nat) : a ≤ l.foldl max a := by
  induction l generalizing a with
  | nil => exact Nat.le_refl a
  | cons y ys ih => exact Nat.le_trans (Nat.le_max_left a y) (ih (max a y))

/-- Every member of a list is bounded by its maximum fold. -/
theorem le_foldl_max (l : List Nat) (a : Nat) (x : Nat) (hx : x ∈ l) :
    x ≤ l.foldl max a := by
  induction l generalizing a with
  | nil => cases hx
  | cons y ys ih =>
    cases hx with
    | head => exact Nat.le_trans (Nat.le_max_right a x) (init_le_foldl_max ys (max a x))
    | tail _ h => exact ih (max a y) h

/-- The second component of an enumFrom member is a member of the list. -/
theorem snd_mem_of_mem_enumFrom {α : Type} (l : List α) (n : Nat) (p : Nat × α)
    (hp : p ∈ l.enumFrom n) : p.2 ∈ l := by
  induction l generalizing n with
  | nil => cases hp
  | cons x xs ih =>
    rw [List.enumFrom_cons] at hp
    cases hp with
    | head => exact List.mem_cons_self _ _
    | tail _ h => exact List.mem_cons_of_mem _ (ih (n + 1) h)

/-- Truncated ceiling division of naturals agrees with the rational ceiling. -/
theorem nat_ceil_div_eq_rat_ceil (m L : Nat) (hL : L ≠ 0) :
    (((m + L - 1) / L : Nat) : Int) = ⌈(m : ℚ) / (L : ℚ)⌉ := by
  have hLpos : 0 < L := Nat.pos_of_ne_zero hL
  have hdm := Nat.div_add_mod (m + L - 1) L
  have hmod := Nat.mod_lt (m + L - 1) hLpos
  have hcomm : L * ((m + L - 1) / L) = ((m + L - 1) / L) * L := Nat.mul_comm _ _
  have h1 : m ≤ ((m + L - 1) / L) * L := by omega
  have h2 : ((m + L - 1) / L) * L < m + L := by omega
  have hLQ : (0 : ℚ) < (L : ℚ) := by exact_mod_cast hLpos
  symm
  rw [Int.ceil_eq_iff]
  constructor
  · rw [lt_div_iff₀ hLQ, sub_mul, one_mul, sub_lt_iff_lt_add]
    push_cast
    exact_mod_cast h2
  · rw [div_le_iff₀ hLQ]
    exact_mod_cast h1

/-! Claim theorems. -/

/-- C1: rendering message "hi" with filler "#" (newline resolving to "\n")
produces exactly "# ## #\n# hi #\n# ## #": lineStart "# " and lineEnd " #"
are derived from the filler, frameSize is 2, fillerCount is 2, and the output
is a top border, one centered content line, and a bottom border. -/
theorem C1_frame_hi_exact :
    generateAutoGeneratedWarningFrame "\n"
      (some { message := some "hi", style := some { filler := some "#" } })
      = Except.ok "# ## #\n# hi #\n# ## #" := by
  decide

set_option maxRecDepth 16384 in
/-- C7: with no source file name, generateAutoGeneratedWarningText is the
fixed two-paragraph base warning (mentioning no file name); with
"config.yaml" it is that warning extended by a third paragraph containing the
literal substring "config.yaml" and instructing the reader to modify that
file instead. -/
theorem C7_warning_text :
    generateAutoGeneratedWarningText none
      = "WARNING: AUTO-GENERATED FILE - DO NOT EDIT!\n\nPlease be advised that this is an auto-generated file and should NOT be modified. Any changes made to this file WILL BE OVERWRITTEN."
  ∧ generateAutoGeneratedWarningText (some "config.yaml")
      = generateAutoGeneratedWarningText none
        ++ "\n\nTo make changes to the contents of this file, please modify the "
        ++ "config.yaml"
        ++ " file instead. This will ensure that your changes are properly reflected in the auto-generated file." := by
  exact ⟨by decide, by decide⟩

/-- C8: an explicit empty message yields frameSize 0 and fillerCount 0, the
border line is exactly lineStart ++ lineEnd with no filler characters, and
the single content line is also exactly lineStart ++ lineEnd. -/
theorem C8_empty_message :
    frameSizeOf (some { message := some "" }) = 0
  ∧ fillerCount (resolvedFiller (some { message := some "" })) 0 = 0
  ∧ generateAutoGeneratedWarningFrame "\n" (some { message := some "" })
      = Except.ok (("# " ++ " #") ++ "\n" ++ ("# " ++ " #") ++ "\n" ++ ("# " ++ " #")) := by
  exact ⟨by decide, by decide, by decide⟩

set_option maxRecDepth 16384 in
/-- C10: an empty-string sourceFileName is treated as absent by
generateAutoGeneratedWarningText (no third paragraph), while an empty-string
message is honored by the frame renderer: the resolved message is "" and the
non-empty default warning text is not substituted. -/
theorem C10_empty_string_options :
    generateAutoGeneratedWarningText (some "") = generateAutoGeneratedWarningText none
  ∧ resolvedMessage (some { message := some "" }) = ""
  ∧ generateAutoGeneratedWarningText none ≠ "" := by
  exact ⟨by decide, by decide, by decide⟩

/-- C3 (counterexample): with an empty filler and the non-empty message "hi"
the renderer crashes: frameSize / 0 is Infinity in JavaScript and
String.repeat on an infinite count throws a RangeError, so the call does not
produce degenerate non-crashing output. -/
theorem C3_counterexample :
    generateAutoGeneratedWarningFrame "\n"
      (some { message := some "hi", style := some { filler := some "" } })
      = Except.error "RangeError: Invalid count value" := by
  decide

/-- C3 (amended): the zero-length-filler case is not guarded.  With an empty
resolved filler the renderer throws a RangeError whenever the frame size is
positive, and only the degenerate frameSize = 0 case (where the NaN repeat
count coerces to 0) returns without crashing. -/
theorem C3_empty_filler_crashes (nl : String) (o : Option AutoGeneratedWarningFrameOptions)
    (h : resolvedFiller o = "") :
    (frameSizeOf o ≠ 0 →
      generateAutoGeneratedWarningFrame nl o = Except.error "RangeError: Invalid count value")
  ∧ (frameSizeOf o = 0 → (generateAutoGeneratedWarningFrame nl o).isOk = true) := by
  have hlen : (resolvedFiller o).length = 0 := by rw [h]; rfl
  constructor
  · intro hf
    unfold generateAutoGeneratedWarningFrame fillerRepeat
    simp [hlen, hf]
  · intro hf
    unfold generateAutoGeneratedWarningFrame fillerRepeat
    simp [hlen, hf, Except.isOk, Except.toBool]

/-- C3 (amended, witness): the crashing branch at a concrete input. -/
theorem C3_empty_filler_crashes_witness :
    generateAutoGeneratedWarningFrame "\n"
      (some { message := some "ab", style := some { filler := some "" } })
      = Except.error "RangeError: Invalid count value" := by
  exact (C3_empty_filler_crashes "\n"
    (some { message := some "ab", style := some { filler := some "" } }) (by decide)).1 (by decide)

/-- C9: for every input whose resolved filler is non-empty (i.e. everything
except a malformed empty-string filler), the renderer raises no error and
returns a well-defined string. -/
theorem C9_no_error (nl : String) (o : Option AutoGeneratedWarningFrameOptions)
    (h : resolvedFiller o ≠ "") :
    ∃ s, generateAutoGeneratedWarningFrame nl o = Except.ok s := by
  have hlen : (resolvedFiller o).length ≠ 0 := fun hc =>
    h (string_eq_empty_of_length_eq_zero _ hc)
  have hrep : fillerRepeat (resolvedFiller o) (frameSizeOf o)
      = Except.ok (repeatString (resolvedFiller o)
          (fillerCount (resolvedFiller o) (frameSizeOf o))) := by
    unfold fillerRepeat
    simp [hlen]
  cases hcase : generateAutoGeneratedWarningFrame nl o with
  | ok s => exact ⟨s, rfl⟩
  | error e =>
    unfold generateAutoGeneratedWarningFrame at hcase
    rw [hrep] at hcase
    simp at hcase

/-- C9 (witness): the renderer succeeds with no options at all. -/
theorem C9_no_error_witness :
    ∃ s, generateAutoGeneratedWarningFrame "\n" none = Except.ok s :=
  C9_no_error "\n" none (by decide)

/-- C2 (counterexample): with lineWidth 1, which is smaller than
minLineLength 4, the budget is clamped to 0 as claimed — but 0 is the line
wrapper's no-limit sentinel, so the message "hi" stays on a single
two-character content line; the output is identical to the unconstrained
render rather than being maximally wrapped one character per line. -/
theorem C2_counterexample :
    maxLineLengthOf
      (some { message := some "hi", style := some { filler := some "#" }, lineWidth := some 1 }) = 0
  ∧ wrappedLines
      (some { message := some "hi", style := some { filler := some "#" }, lineWidth := some 1 }) = ["hi"]
  ∧ ("hi" : String).length > 1
  ∧ generateAutoGeneratedWarningFrame "\n"
      (some { message := some "hi", style := some { filler := some "#" }, lineWidth := some 1 })
      = Except.ok "# ## #\n# hi #\n# ## #" := by
  exact ⟨by decide, by decide, by decide, by decide⟩

/-- C2 (amended): when the effective lineWidth is smaller than minLineLength,
the maxLineLength handed to the line wrapper is clamped to 0, so the call
does not underflow and no negative-length error occurs; 0 being the
wrapper's no-limit sentinel, the message is split only at hard line breaks
(unconstrained wrapping), not maximally wrapped. -/
theorem C2_clamped_width (o : Option AutoGeneratedWarningFrameOptions)
    (h : (o.bind (·.lineWidth)).getD 0 < (minLineLengthOf o : Int)) :
    maxLineLengthOf o = 0 ∧ wrappedLines o = hardSplitLines (resolvedMessage o) := by
  have h0 : maxLineLengthOf o = 0 := by
    unfold maxLineLengthOf
    omega
  refine ⟨h0, ?_⟩
  unfold wrappedLines
  rw [h0]
  simp [splitLines]

/-- C2 (amended, witness): lineWidth 2 below the default minLineLength 4. -/
theorem C2_clamped_width_witness :
    maxLineLengthOf (some { message := some "a\nb", lineWidth := some 2 }) = 0
  ∧ wrappedLines (some { message := some "a\nb", lineWidth := some 2 })
      = hardSplitLines (resolvedMessage (some { message := some "a\nb", lineWidth := some 2 })) :=
  C2_clamped_width (some { message := some "a\nb", lineWidth := some 2 }) (by decide)

/-- C6: the alignment used for content line i is the alignment-sequence entry
at index min(i, length - 1): an absent align resolves to the one-element
default sequence [center], a single value is wrapped and applied to every
line, an index inside the sequence selects that entry, and every index at or
past the end of a non-empty sequence reuses the last entry (the sequence is
not cyclic). -/
theorem C6_alignment (o : Option AutoGeneratedWarningFrameOptions)
    (l : List FrameAlign) (a : FrameAlign) (i : Nat) :
    (o.bind (·.align) = none → resolvedAlign o = [FrameAlign.center])
  ∧ (o.bind (·.align) = some (AlignSpec.single a) → resolvedAlign o = [a])
  ∧ alignFor [a] i = a
  ∧ (l ≠ [] → l.length - 1 ≤ i → alignFor l i = l.getD (l.length - 1) FrameAlign.center)
  ∧ (i < l.length → alignFor l i = l.getD i FrameAlign.center) := by
  refine ⟨?_, ?_, ?_, ?_, ?_⟩
  · intro h
    simp [resolvedAlign, h, DEFAULT_FRAME_ALIGN]
  · intro h
    simp [resolvedAlign, h]
  · simp [alignFor]
  · intro _ hi
    unfold alignFor
    rw [Nat.min_eq_right hi]
  · intro hi
    unfold alignFor
    rw [Nat.min_eq_left (by omega)]

/-- C6 (witness): the indexing rule at concrete inputs. -/
theorem C6_alignment_witness :
    resolvedAlign none = [FrameAlign.center]
  ∧ resolvedAlign (some { align := some (AlignSpec.single FrameAlign.start) }) = [FrameAlign.start]
  ∧ alignFor [FrameAlign.start] 5 = FrameAlign.start
  ∧ alignFor [FrameAlign.start, FrameAlign.«end»] 9
      = [FrameAlign.start, FrameAlign.«end»].getD
          ([FrameAlign.start, FrameAlign.«end»].length - 1) FrameAlign.center
  ∧ alignFor [FrameAlign.start, FrameAlign.«end»] 0
      = [FrameAlign.start, FrameAlign.«end»].getD 0 FrameAlign.center := by
  refine ⟨?_, ?_, ?_, ?_, ?_⟩
  · exact (C6_alignment none [] FrameAlign.center 0).1 rfl
  · exact (C6_alignment (some { align := some (AlignSpec.single FrameAlign.start) })
      [] FrameAlign.start 0).2.1 rfl
  · exact (C6_alignment none [] FrameAlign.start 5).2.2.1
  · exact (C6_alignment none [FrameAlign.start, FrameAlign.«end»] FrameAlign.center 9).2.2.2.1
      (by decide) (by decide)
  · exact (C6_alignment none [FrameAlign.start, FrameAlign.«end»] FrameAlign.center 0).2.2.2.2
      (by decide)

/-- C4: for a render with a non-empty filler, the border fill repeat count
equals the ceiling of frameSize / length(filler), the count is 0 when
frameSize is 0, and the border construction repeats the filler exactly that
many times. -/
theorem C4_fillerCount_is_ceil (o : Option AutoGeneratedWarningFrameOptions)
    (h : resolvedFiller o ≠ "") :
    ((fillerCount (resolvedFiller o) (frameSizeOf o) : Int)
        = ⌈(frameSizeOf o : ℚ) / ((resolvedFiller o).length : ℚ)⌉)
  ∧ (frameSizeOf o = 0 → fillerCount (resolvedFiller o) (frameSizeOf o) = 0)
  ∧ fillerRepeat (resolvedFiller o) (frameSizeOf o)
      = Except.ok (repeatString (resolvedFiller o)
          (fillerCount (resolvedFiller o) (frameSizeOf o))) := by
  have hlen : (resolvedFiller o).length ≠ 0 := fun hc =>
    h (string_eq_empty_of_length_eq_zero _ hc)
  refine ⟨?_, ?_, ?_⟩
  · exact nat_ceil_div_eq_rat_ceil (frameSizeOf o) (resolvedFiller o).length hlen
  · intro h0
    unfold fillerCount
    rw [h0]
    exact Nat.div_eq_of_lt (by omega)
  · unfold fillerRepeat
    simp [hlen]

/-- C4 (witness): message "abc" with filler "##": frameSize 3, repeat count
the ceiling of 3 / 2. -/
theorem C4_fillerCount_is_ceil_witness :
    (fillerCount
        (resolvedFiller (some { message := some "abc", style := some { filler := some "##" } }))
        (frameSizeOf (some { message := some "abc", style := some { filler := some "##" } })) : Int)
      = ⌈(frameSizeOf (some { message := some "abc", style := some { filler := some "##" } }) : ℚ)
          / ((resolvedFiller
              (some { message := some "abc", style := some { filler := some "##" } })).length : ℚ)⌉ :=
  (C4_fillerCount_is_ceil
    (some { message := some "abc", style := some { filler := some "##" } }) (by decide)).1

/-- C5: with a non-empty message, no lineWidth, and a non-empty filler, every
content line has length lineStart + frameSize + lineEnd (its interior is
padded to exactly frameSize characters), the rendered output consists of a
border line, the content lines, and the border line again, and both border
lines have length lineStart + fillerCount * length(filler) + lineEnd. -/
theorem C5_uniform_widths (nl : String) (o : Option AutoGeneratedWarningFrameOptions)
    (_hm : resolvedMessage o ≠ "")
    (_hw : o.bind (·.lineWidth) = none)
    (hf : resolvedFiller o ≠ "") :
    (∀ line ∈ contentLines o,
        line.length = (resolvedLineStart o).length + frameSizeOf o + (resolvedLineEnd o).length)
  ∧ generateAutoGeneratedWarningFrame nl o
      = Except.ok (joinSep (resolvedNewline nl o)
          ((resolvedLineStart o
              ++ repeatString (resolvedFiller o) (fillerCount (resolvedFiller o) (frameSizeOf o))
              ++ resolvedLineEnd o)
            :: (contentLines o
              ++ [resolvedLineStart o
                  ++ repeatString (resolvedFiller o) (fillerCount (resolvedFiller o) (frameSizeOf o))
                  ++ resolvedLineEnd o])))
  ∧ (resolvedLineStart o
      ++ repeatString (resolvedFiller o) (fillerCount (resolvedFiller o) (frameSizeOf o))
      ++ resolvedLineEnd o).length
      = (resolvedLineStart o).length
        + fillerCount (resolvedFiller o) (frameSizeOf o) * (resolvedFiller o).length
        + (resolvedLineEnd o).length := by
  have hlen : (resolvedFiller o).length ≠ 0 := fun hc =>
    hf (string_eq_empty_of_length_eq_zero _ hc)
  refine ⟨?_, ?_, ?_⟩
  · intro line hline
    unfold contentLines at hline
    obtain ⟨p, hp, hpe⟩ := List.mem_map.1 hline
    have hx : p.2 ∈ wrappedLines o := snd_mem_of_mem_enumFrom _ 0 p hp
    have hxle : p.2.length ≤ frameSizeOf o := by
      unfold frameSizeOf
      exact le_foldl_max _ 0 _ (List.mem_map_of_mem String.length hx)
    rw [← hpe, String.length_append, String.length_append, pad_length,
      Nat.max_eq_right hxle]
  · have hrep : fillerRepeat (resolvedFiller o) (frameSizeOf o)
        = Except.ok (repeatString (resolvedFiller o)
            (fillerCount (resolvedFiller o) (frameSizeOf o))) := by
      unfold fillerRepeat
      simp [hlen]
    unfold generateAutoGeneratedWarningFrame
    rw [hrep]
  · rw [String.length_append, String.length_append, repeatString_length]

/-- C5 (witness): the width rule at the first content line of the render of
the message "ab\nc". -/
theorem C5_uniform_widths_witness :
    ("# ab #" : String).length
      = (resolvedLineStart (some { message := some "ab\nc" })).length
        + frameSizeOf (some { message := some "ab\nc" })
        + (resolvedLineEnd (some { message := some "ab\nc" })).length :=
  (C5_uniform_widths "\n" (some { message := some "ab\nc" }) (by decide) rfl (by decide)).1
    "# ab #" (by decide)

end McPublish
